import Mathlib

/-!
Verification development for the Thinkle newsletter pipeline.

Shallow embedding of the repository's engineered logic:
  - `src/config/config_parser.py` : Pydantic configuration model and its
    validators (interests dedup, numeric range checks, content-source check),
    plus the save/load round trip.
  - `src/agents/states.py` : the task/story data model and the Pydantic
    validation of `NewsStory`.
  - `src/agents/scout.py` : the bounded tool-invocation subgraph (agent /
    tools / after_tools / final nodes) and the final structured-extraction
    step.
  - `src/agents/planner.py` : the planner node.
  - `src/agents/evaluator.py` : the evaluator subgraph (llm node, router,
    clear_tasks node) with its follow-up cycle cap.
  - `src/generate_newsletter.py` : the fan-out of scout Send payloads.

Language-model calls are opaque collaborators: they are modelled as explicit
function parameters (the "behavior") supplying the structured outputs the
code consumes.  Python `int` is modelled as `Int` (counters that start at 0
and only increment use `Nat`), Python strings as `String`, absent dict keys
as `Option`.
-/

deriving instance DecidableEq for Except

namespace Thinkle

/-- Python `str.strip()`: remove whitespace from both ends, written over the
character list so the kernel can evaluate it. -/
def pyStrip (s : String) : String :=
  ⟨((s.data.dropWhile Char.isWhitespace).reverse.dropWhile Char.isWhitespace).reverse⟩

/-- Python `str.lower()` restricted to ASCII (all the comparisons in the code
are over ASCII interests), written over the character list. -/
def pyLower (s : String) : String :=
  ⟨s.data.map Char.toLower⟩

/-! ## Configuration model (`src/config/config_parser.py`) -/

/-- Literal type of `NewsletterSettings.tone`. -/
inductive Tone where
  | professional
  | witty
  | casual
  | academic
  deriving DecidableEq, Repr

/-- Literal type of `NewsletterSettings.frequency`. -/
inductive Frequency where
  | daily
  | weekly
  deriving DecidableEq, Repr

/-- Literal type of `OutputSettings.format`. -/
inductive OutFormat where
  | markdown
  | pdf
  | html
  deriving DecidableEq, Repr

/-- `RedditSettings` (config_parser.py lines 15-18). -/
structure RedditSettings where
  min_upvotes : Int
  max_age_hours : Int
  deriving DecidableEq, Repr

/-- `YouTubeSettings` (config_parser.py lines 21-24). -/
structure YouTubeSettings where
  min_views : Int
  max_duration_minutes : Int
  deriving DecidableEq, Repr

/-- `ContentSettings` (config_parser.py lines 27-47). -/
structure ContentSettings where
  include_academic : Bool
  include_reddit : Bool
  include_youtube : Bool
  include_news : Bool
  reddit : RedditSettings
  youtube : YouTubeSettings
  deriving DecidableEq, Repr

/-- `NewsletterSettings` (config_parser.py lines 50-58). -/
structure NewsletterSettings where
  tone : Tone
  include_opinions : Bool
  frequency : Frequency
  max_stories : Int
  deriving DecidableEq, Repr

/-- `OutputSettings` (config_parser.py lines 61-68). -/
structure OutputSettings where
  format : OutFormat
  include_sources : Bool
  include_summary_stats : Bool
  deriving DecidableEq, Repr

/-- `ModelSettings` (config_parser.py lines 71-76): one model name per stage,
no constraints beyond being strings. -/
structure ModelSettings where
  planner : String
  scout : String
  evaluator : String
  writer : String
  deriving DecidableEq, Repr

/-- `ThinkleConfig` (config_parser.py lines 79-115), after validation. -/
structure ThinkleConfig where
  interests : List String
  user_profile : String
  newsletter : NewsletterSettings
  content : ContentSettings
  output : OutputSettings
  models : ModelSettings
  max_tasks : Int
  deriving DecidableEq, Repr

/-- Loop body of `ThinkleConfig.validate_interests` (config_parser.py lines
101-107): walk the list keeping a `seen` set of lowercased originals; an entry
whose `lower()` is unseen is appended `strip()`ped.  The Python loop appends to
the tail of an accumulator; the structural recursion below produces the same
list.  Note the membership key is the lowercase of the UNtrimmed entry. -/
def dedupInterests (seen : List String) : List String → List String
  | [] => []
  | i :: rest =>
      if pyLower i ∈ seen then dedupInterests seen rest
      else pyStrip i :: dedupInterests (pyLower i :: seen) rest

/-- `ThinkleConfig.validate_interests` (config_parser.py lines 94-109). -/
def validate_interests (v : List String) : Except String (List String) :=
  if v = [] then .error "At least one interest must be specified"
  else .ok (dedupInterests [] v)

/-- Field validation of `NewsletterSettings.tone` / `OutputSettings.format` /
`NewsletterSettings.frequency`: a Literal field accepts exactly the listed
strings. -/
def parseTone : String → Except String Tone
  | "professional" => .ok .professional
  | "witty" => .ok .witty
  | "casual" => .ok .casual
  | "academic" => .ok .academic
  | _ => .error "tone: Input should be one of the permitted literals"

/-- Inverse rendering of `Tone` used by `model_dump`. -/
def toneStr : Tone → String
  | .professional => "professional"
  | .witty => "witty"
  | .casual => "casual"
  | .academic => "academic"

/-- Literal validation for `frequency`. -/
def parseFrequency : String → Except String Frequency
  | "daily" => .ok .daily
  | "weekly" => .ok .weekly
  | _ => .error "frequency: Input should be one of the permitted literals"

/-- Inverse rendering of `Frequency` used by `model_dump`. -/
def freqStr : Frequency → String
  | .daily => "daily"
  | .weekly => "weekly"

/-- Literal validation for `format`. -/
def parseOutFormat : String → Except String OutFormat
  | "markdown" => .ok .markdown
  | "pdf" => .ok .pdf
  | "html" => .ok .html
  | _ => .error "format: Input should be one of the permitted literals"

/-- Inverse rendering of `OutFormat` used by `model_dump`. -/
def outFormatStr : OutFormat → String
  | .markdown => "markdown"
  | .pdf => "pdf"
  | .html => "html"

/-- Pydantic construction of `RedditSettings`: `min_upvotes` has `ge=0`,
`max_age_hours` has `gt=0`. -/
def mkRedditSettings (min_upvotes max_age_hours : Int) : Except String RedditSettings :=
  if min_upvotes < 0 then
    .error "min_upvotes: Input should be greater than or equal to 0"
  else if max_age_hours ≤ 0 then
    .error "max_age_hours: Input should be greater than 0"
  else .ok ⟨min_upvotes, max_age_hours⟩

/-- Pydantic construction of `YouTubeSettings`: `min_views` has `ge=0`,
`max_duration_minutes` has `gt=0`. -/
def mkYouTubeSettings (min_views max_duration_minutes : Int) : Except String YouTubeSettings :=
  if min_views < 0 then
    .error "min_views: Input should be greater than or equal to 0"
  else if max_duration_minutes ≤ 0 then
    .error "max_duration_minutes: Input should be greater than 0"
  else .ok ⟨min_views, max_duration_minutes⟩

/-- Pydantic construction of `ContentSettings`, including the
`validate_at_least_one_source` model validator (config_parser.py lines 36-47). -/
def mkContentSettings (include_academic include_reddit include_youtube include_news : Bool)
    (reddit : RedditSettings) (youtube : YouTubeSettings) : Except String ContentSettings :=
  if include_academic ∨ include_reddit ∨ include_youtube ∨ include_news then
    .ok ⟨include_academic, include_reddit, include_youtube, include_news, reddit, youtube⟩
  else .error "At least one content source must be enabled"

/-- Pydantic construction of `NewsletterSettings`: `max_stories` has
`gt=0, le=50`, `tone` and `frequency` are Literal fields. -/
def mkNewsletterSettings (tone : String) (include_opinions : Bool) (frequency : String)
    (max_stories : Int) : Except String NewsletterSettings := do
  let t ← parseTone tone
  let f ← parseFrequency frequency
  if 0 < max_stories ∧ max_stories ≤ 50 then
    .ok ⟨t, include_opinions, f, max_stories⟩
  else .error "max_stories: Input should be greater than 0 and less than or equal to 50"

/-- Pydantic construction of `OutputSettings`. -/
def mkOutputSettings (format : String) (include_sources include_summary_stats : Bool) :
    Except String OutputSettings := do
  let f ← parseOutFormat format
  .ok ⟨f, include_sources, include_summary_stats⟩

/-- Field values of the YAML configuration document, flattened: one entry per
leaf key of the schema in config_parser.py.  `yaml.safe_load` /// `yaml.dump`
round-trip these plain scalars and lists verbatim, so the YAML layer is
modelled as the identity on this record. -/
structure RawConfig where
  interests : List String
  user_profile : String
  tone : String
  include_opinions : Bool
  frequency : String
  max_stories : Int
  include_academic : Bool
  include_reddit : Bool
  include_youtube : Bool
  include_news : Bool
  reddit_min_upvotes : Int
  reddit_max_age_hours : Int
  youtube_min_views : Int
  youtube_max_duration_minutes : Int
  format : String
  include_sources : Bool
  include_summary_stats : Bool
  models_planner : String
  models_scout : String
  models_evaluator : String
  models_writer : String
  max_tasks : Int
  deriving DecidableEq, Repr

/-- `ThinkleConfig(**raw_config)` as run by `ConfigParser.load_config`
(config_parser.py lines 164-168): validate every nested model and field,
run the interests validator, check `max_tasks` (`gt=0, le=10`). -/
def mkThinkleConfig (raw : RawConfig) : Except String ThinkleConfig := do
  let interests ← validate_interests raw.interests
  let newsletter ← mkNewsletterSettings raw.tone raw.include_opinions raw.frequency raw.max_stories
  let reddit ← mkRedditSettings raw.reddit_min_upvotes raw.reddit_max_age_hours
  let youtube ← mkYouTubeSettings raw.youtube_min_views raw.youtube_max_duration_minutes
  let content ← mkContentSettings raw.include_academic raw.include_reddit raw.include_youtube
      raw.include_news reddit youtube
  let output ← mkOutputSettings raw.format raw.include_sources raw.include_summary_stats
  if 0 < raw.max_tasks ∧ raw.max_tasks ≤ 10 then
    .ok ⟨interests, raw.user_profile, newsletter, content, output,
      ⟨raw.models_planner, raw.models_scout, raw.models_evaluator, raw.models_writer⟩,
      raw.max_tasks⟩
  else .error "max_tasks: Input should be greater than 0 and less than or equal to 10"

/-- `config.model_dump()` as used by `ConfigParser.save_config`
(config_parser.py lines 196-213): render the config back to plain YAML-ready
values (`use_enum_values` makes Literal fields plain strings). -/
def dumpConfig (c : ThinkleConfig) : RawConfig :=
  ⟨c.interests, c.user_profile, toneStr c.newsletter.tone, c.newsletter.include_opinions,
    freqStr c.newsletter.frequency, c.newsletter.max_stories,
    c.content.include_academic, c.content.include_reddit, c.content.include_youtube,
    c.content.include_news, c.content.reddit.min_upvotes, c.content.reddit.max_age_hours,
    c.content.youtube.min_views, c.content.youtube.max_duration_minutes,
    outFormatStr c.output.format, c.output.include_sources, c.output.include_summary_stats,
    c.models.planner, c.models.scout, c.models.evaluator, c.models.writer, c.max_tasks⟩

/-- `save_config` followed by `load_config` on the saved file
(config_parser.py lines 140-171 and 196-213). -/
def saveThenLoad (c : ThinkleConfig) : Except String ThinkleConfig :=
  mkThinkleConfig (dumpConfig c)

/-! ## Task/story data model (`src/agents/states.py`) -/

/-- `ResearchTask` (states.py lines 9-15): both fields required. -/
structure ResearchTask where
  topic : String
  additional_info : String
  deriving DecidableEq, Repr

/-- `NewsStory` (states.py lines 18-29): seven required fields, `score` a
plain `int` with no range constraint declared. -/
structure NewsStory where
  title : String
  summary : String
  source : String
  url : String
  score : Int
  timestamp : String
  topic : String
  deriving DecidableEq, Repr

/-- `PlannerOutput` (states.py lines 32-37). -/
structure PlannerOutput where
  ScoutTasks : List ResearchTask
  deriving DecidableEq, Repr

/-- `ScoutOutput` (states.py lines 80-86). -/
structure ScoutOutput where
  NewsStories : List NewsStory
  Explanation : String
  deriving DecidableEq, Repr

/-- `EvaluatorOutput` (states.py lines 61-70). -/
structure EvaluatorOutput where
  NewsStories : List NewsStory
  InvestigatorTasks : List ResearchTask
  Explanation : String
  deriving DecidableEq, Repr

/-- `ScoutState` (states.py lines 73-77).  `scout_node` reads `config` with
`state.get("config")` and tolerates its absence, so the field is an `Option`. -/
structure ScoutState where
  AssignedTask : ResearchTask
  config : Option ThinkleConfig
  deriving DecidableEq, Repr

/-! ## Pydantic validation of `NewsStory`
(`NewsStory.model_validate` / structured-output schema enforcement).

Values arriving from JSON are strings, integers or something else; a field of
a parsed payload is either absent (`none`) or one of these.  Pydantic v2 lax
mode accepts an `int` (or an integer-shaped string) for an `int` field and a
string for a `str` field; anything else is a per-field validation error, and
an absent field is the `Field required` error.  Errors short-circuit here
while Pydantic collects them all; success and failure coincide. -/

/-- A JSON-ish value as seen by Pydantic validation. -/
inductive PyVal where
  | str (s : String)
  | int (z : Int)
  | listV (xs : List String)
  deriving DecidableEq, Repr

/-- An incoming `NewsStory` payload: each declared field present or absent. -/
structure RawNewsStory where
  title : Option PyVal
  summary : Option PyVal
  source : Option PyVal
  url : Option PyVal
  score : Option PyVal
  timestamp : Option PyVal
  topic : Option PyVal
  deriving DecidableEq, Repr

/-- Validation of one required `str` field. -/
def validateStr (fieldName : String) : Option PyVal → Except String String
  | some (.str s) => .ok s
  | some _ => .error (fieldName ++ ": Input should be a valid string")
  | none => .error (fieldName ++ ": Field required")

/-- Validation of one required `int` field (lax mode: integer-shaped strings
coerce). -/
def validateInt (fieldName : String) : Option PyVal → Except String Int
  | some (.int z) => .ok z
  | some (.str s) =>
      match s.toInt? with
      | some z => .ok z
      | none => .error (fieldName ++ ": Input should be a valid integer")
  | some _ => .error (fieldName ++ ": Input should be a valid integer")
  | none => .error (fieldName ++ ": Field required")

/-- `NewsStory.model_validate` (states.py lines 18-29): every one of the seven
fields is declared required (`...`), none has a default. -/
def NewsStory.model_validate (raw : RawNewsStory) : Except String NewsStory := do
  let title ← validateStr "title" raw.title
  let summary ← validateStr "summary" raw.summary
  let source ← validateStr "source" raw.source
  let url ← validateStr "url" raw.url
  let score ← validateInt "score" raw.score
  let timestamp ← validateStr "timestamp" raw.timestamp
  let topic ← validateStr "topic" raw.topic
  return { title, summary, source, url, score, timestamp, topic }

/-! ## Scout tool-invocation subgraph (`src/agents/scout.py`) -/

/-- Nodes of the compiled scout subgraph (scout.py lines 98-115), plus the
graph END. -/
inductive ScoutNode where
  | agent
  | tools
  | after_tools
  | final
  | graphEnd
  deriving DecidableEq, Repr

/-- Observable counters of one scout-subgraph run.  `step` indexes agent
invocations so an abstract agent behavior can be consulted; `agentCalls`
counts invocations of the tool-bound model, `finalCalls` invocations of the
structured-extraction model. -/
structure LoopStats where
  node : ScoutNode
  tool_iterations : Nat
  agentCalls : Nat
  finalCalls : Nat
  step : Nat
  deriving DecidableEq, Repr

/-- Initial subgraph state: START enters `agent` with `tool_iterations`
unset (read back as 0 via `s.get("tool_iterations", 0)`). -/
def initLoop : LoopStats := ⟨.agent, 0, 0, 0, 0⟩

/-- One superstep of the compiled scout subgraph, for an abstract agent whose
k-th invocation requests a tool call iff `wantsTool k`:

  * `agent` runs `agent_step` (one tool-bound model call); the conditional
    edge is the prebuilt `tools_condition` (scout.py line 107), which routes
    to `tools` when the reply carries tool calls and otherwise to END — not
    to `final`.
  * `tools` executes the requested calls, then the fixed edge to
    `after_tools`.
  * `after_tools` increments `tool_iterations` and routes back to `agent`
    while the counter is below 3, else to `final` (scout.py lines 109-112).
  * `final` runs `final_step` (one tool-free structured call) then END. -/
def scoutStep (wantsTool : Nat → Bool) (s : LoopStats) : LoopStats :=
  match s.node with
  | .agent =>
      if wantsTool s.step then
        { s with node := .tools, agentCalls := s.agentCalls + 1, step := s.step + 1 }
      else
        { s with node := .graphEnd, agentCalls := s.agentCalls + 1, step := s.step + 1 }
  | .tools => { s with node := .after_tools }
  | .after_tools =>
      let count := s.tool_iterations + 1
      if count < 3 then { s with node := .agent, tool_iterations := count }
      else { s with node := .final, tool_iterations := count }
  | .final => { s with node := .graphEnd, finalCalls := s.finalCalls + 1 }
  | .graphEnd => s

/-- Run the scout subgraph for at most `fuel` supersteps (the graph runtime
iterates until END; any fuel past termination is inert). -/
def scoutRun (wantsTool : Nat → Bool) : Nat → LoopStats → LoopStats
  | 0, s => s
  | fuel + 1, s =>
      if s.node = ScoutNode.graphEnd then s
      else scoutRun wantsTool fuel (scoutStep wantsTool s)

/-- `final_step` of the scout subgraph (scout.py lines 57-91), success path:
the structured payload's stories are written to the `NewsStories` channel
verbatim — no field is rewritten from the assigned task. -/
def final_step (parsed : ScoutOutput) : List NewsStory :=
  parsed.NewsStories

/-- Stories the scout stage returns for a given `ScoutState` once the final
extraction produced `parsed`: `final_step` ignores the assigned task. -/
def scoutStageStories (_state : ScoutState) (parsed : ScoutOutput) : List NewsStory :=
  final_step parsed

/-- Model-name selection inside `scout_node` (scout.py lines 39-42):
`state.get("config").models.scout if state.get("config") else "gpt-5-mini"`. -/
def scout_model_name (config : Option ThinkleConfig) : String :=
  match config with
  | some cfg => cfg.models.scout
  | none => "gpt-5-mini"

/-! ## Planner stage (`src/agents/planner.py`) -/

/-- `planner_node` (planner.py lines 17-33): the config reaches only the
prompt (`max_tasks` is interpolated into `PLANNER_PROMPT`); the structured
response's `ScoutTasks` are returned to the state unchanged — in particular
they are not truncated to `max_tasks`. -/
def planner_node (_cfg : ThinkleConfig) (response : PlannerOutput) : List ResearchTask :=
  response.ScoutTasks

/-! ## Evaluator stage (`src/agents/evaluator.py`) -/

/-- The dict passed to `Send("scout", ...)`: `router_node` (evaluator.py lines
27-37) sends only `AssignedTask`; `generate_scout_tasks`
(generate_newsletter.py lines 44-49) sends `AssignedTask` and `config`. -/
structure ScoutSend where
  AssignedTask : ResearchTask
  config : Option ThinkleConfig
  deriving DecidableEq, Repr

/-- Return type of `router_node`: a list of Sends, or the literal "end". -/
inductive RouterDecision where
  | dispatch (sends : List ScoutSend)
  | endRoute
  deriving DecidableEq, Repr

/-- `EvaluatorState` (states.py lines 51-58): `NewsStories` accumulates via
`operator.add`, `InvestigatorTasks` is replaced wholesale, `followup_cycles`
is a counter defaulting to 0, and `messages` (an `add_messages` log) is
abstracted to its length. -/
structure EvaluatorState where
  config : ThinkleConfig
  NewsStories : List NewsStory
  InvestigatorTasks : List ResearchTask
  followup_cycles : Nat
  messages : Nat
  deriving DecidableEq, Repr

/-- `llm_node` (evaluator.py lines 41-74) given the structured model output:
the returned update appends `response.NewsStories` (reducer `operator.add`)
and replaces `InvestigatorTasks` with `response.InvestigatorTasks` — every
proposed task, not just the first. -/
def llm_node (response : EvaluatorOutput) (s : EvaluatorState) : EvaluatorState :=
  { s with
    NewsStories := s.NewsStories ++ response.NewsStories,
    InvestigatorTasks := response.InvestigatorTasks }

/-- `router_node` (evaluator.py lines 23-38): when `InvestigatorTasks` is
non-empty and `followup_cycles < 1`, emit one `Send("scout", ...)` per task —
each payload a fresh `ResearchTask` copy and no `config` key; otherwise the
string "end". -/
def router_node (s : EvaluatorState) : RouterDecision :=
  if s.InvestigatorTasks ≠ [] ∧ s.followup_cycles < 1 then
    .dispatch (s.InvestigatorTasks.map fun t => ⟨⟨t.topic, t.additional_info⟩, none⟩)
  else .endRoute

/-- `clear_tasks_node` (evaluator.py lines 77-94): increment
`followup_cycles`, clear `InvestigatorTasks`, append one status message. -/
def clear_tasks_node (s : EvaluatorState) : EvaluatorState :=
  { s with
    followup_cycles := s.followup_cycles + 1,
    InvestigatorTasks := [],
    messages := s.messages + 1 }

/-- Fan-in of one dispatched scout round: each Send's resulting stories are
appended to the accumulating `NewsStories` channel (reducer `operator.add`);
`scout` is the opaque per-Send scout result. -/
def scout_round (scout : ScoutSend → List NewsStory) (sends : List ScoutSend)
    (s : EvaluatorState) : EvaluatorState :=
  { s with NewsStories := s.NewsStories ++ (sends.map scout).flatten }

/-- Run of the evaluator subgraph (evaluator.py lines 98-110):
START → llm → router; a dispatch runs the scouts, then `clear_tasks`, then
back to llm.  `behavior n` is the opaque structured output of the n-th llm
pass.  Returns the final state and the number of scout rounds dispatched;
`none` when `fuel` supersteps were not enough (non-termination witness). -/
def evaluator_run (behavior : Nat → EvaluatorOutput) (scout : ScoutSend → List NewsStory) :
    Nat → Nat → EvaluatorState → Option (EvaluatorState × Nat)
  | 0, _, _ => none
  | fuel + 1, pass, s =>
      let s1 := llm_node (behavior pass) s
      match router_node s1 with
      | .endRoute => some (s1, 0)
      | .dispatch sends =>
          let s3 := clear_tasks_node (scout_round scout sends s1)
          (evaluator_run behavior scout fuel (pass + 1) s3).map fun r => (r.1, r.2 + 1)

/-- Value of `followup_cycles` at every node boundary of the same run, in
visit order (state entering the llm pass, after the llm pass, after the scout
round, then recursively from the cleared state). -/
def evaluator_cycle_values (behavior : Nat → EvaluatorOutput)
    (scout : ScoutSend → List NewsStory) :
    Nat → Nat → EvaluatorState → List Nat
  | 0, _, s => [s.followup_cycles]
  | fuel + 1, pass, s =>
      let s1 := llm_node (behavior pass) s
      match router_node s1 with
      | .endRoute => [s.followup_cycles, s1.followup_cycles]
      | .dispatch sends =>
          let s2 := scout_round scout sends s1
          s.followup_cycles :: s1.followup_cycles :: s2.followup_cycles ::
            evaluator_cycle_values behavior scout fuel (pass + 1) (clear_tasks_node s2)

/-! ## Orchestrator fan-out (`src/generate_newsletter.py`) -/

/-- `PlannerState` (states.py lines 40-48) restricted to what
`generate_scout_tasks` reads. -/
structure PlannerState where
  config : ThinkleConfig
  ScoutTasks : List ResearchTask
  deriving DecidableEq, Repr

/-- `generate_scout_tasks` (generate_newsletter.py lines 44-49): one Send per
planned task, each carrying the shared config. -/
def generate_scout_tasks (state : PlannerState) : List ScoutSend :=
  state.ScoutTasks.map fun task => ⟨task, some state.config⟩

/-! ## Concrete sample values used by counterexamples and witnesses -/

/-- Default `ModelSettings` (config defaults in config_parser.py). -/
def defaultModels : ModelSettings := ⟨"gpt-5-mini", "gpt-5-mini", "gpt-5-mini", "gpt-5-mini"⟩

/-- A config equal to all schema defaults with interests `["AI"]`
(`max_tasks` defaults to 1). -/
def cfgDefault : ThinkleConfig :=
  ⟨["AI"], "", ⟨.witty, true, .weekly, 10⟩,
    ⟨true, true, true, true, ⟨100, 48⟩, ⟨10000, 60⟩⟩,
    ⟨.markdown, true, true⟩, defaultModels, 1⟩

/-- A config whose scout model is set away from the hard-coded default. -/
def cfgCustomScout : ThinkleConfig :=
  { cfgDefault with models := { defaultModels with scout := "my-custom-scout" } }

/-- A raw config document equal to all schema defaults except the given
interests. -/
def rawWithInterests (interests : List String) : RawConfig :=
  ⟨interests, "", "witty", true, "weekly", 10, true, true, true, true,
    100, 48, 10000, 60, "markdown", true, true,
    "gpt-5-mini", "gpt-5-mini", "gpt-5-mini", "gpt-5-mini", 1⟩

/-- A complete, well-typed raw `NewsStory` payload with the given score. -/
def rawStoryWithScore (z : Int) : RawNewsStory :=
  ⟨some (.str "t"), some (.str "s"), some (.str "src"), some (.str "http://x"),
    some (.int z), some (.str "2025-01-01"), some (.str "AI")⟩

/-- The story `rawStoryWithScore z` validates to. -/
def storyWithScore (z : Int) : NewsStory :=
  ⟨"t", "s", "src", "http://x", z, "2025-01-01", "AI"⟩

/-- A story whose topic disagrees with the scout's assigned task. -/
def offTopicStory : NewsStory := ⟨"t", "s", "src", "http://x", 5, "2025-01-01", "Bitcoin"⟩

/-- A scout state assigned the topic "AI". -/
def scoutStateAI : ScoutState := ⟨⟨"AI", "background"⟩, none⟩

/-- Evaluator model behavior that proposes exactly one follow-up task on
every pass. -/
def behaviorOneTask : Nat → EvaluatorOutput := fun _ => ⟨[], [⟨"q", "g"⟩], "x"⟩

/-- Opaque scout collaborator returning no stories. -/
def scoutNoStories : ScoutSend → List NewsStory := fun _ => []

/-- Fresh evaluator state (no stories, no tasks, zero cycles). -/
def evalState0 : EvaluatorState := ⟨cfgDefault, [], [], 0, 0⟩

/-- Evaluator state holding one follow-up task under a config with a
non-default scout model. -/
def evalStateFollowup : EvaluatorState := ⟨cfgCustomScout, [], [⟨"q", "g"⟩], 0, 0⟩

/-- Evaluator model output proposing two follow-up tasks in one pass. -/
def twoTasksOut : EvaluatorOutput := ⟨[], [⟨"t1", "a1"⟩, ⟨"t2", "a2"⟩], "e"⟩

/-- Sample planned tasks. -/
def taskA : ResearchTask := ⟨"Topic 1", "Additional info 1"⟩

/-- Second sample planned task. -/
def taskB : ResearchTask := ⟨"Topic 2", "Additional info 2"⟩

/-- The config `rawWithInterests [" AI", "ai"]` loads to: both entries survive
dedup because the membership key is the lowercase of the untrimmed string. -/
def cfgTwoCase : ThinkleConfig := { cfgDefault with interests := ["AI", "ai"] }

/-- A config with two interests that re-validate to themselves. -/
def cfgTwoInterests : ThinkleConfig := { cfgDefault with interests := ["AI", "Robotics"] }

/-! ## Shared lemmas -/

/-- Success of an `Except` bind factors through a successful first step. -/
theorem except_bind_ok {α β : Type} {ma : Except String α} {f : α → Except String β} {b : β}
    (h : ma >>= f = .ok b) : ∃ a, ma = .ok a ∧ f a = .ok b := by
  cases ma with
  | error e => simp [Bind.bind, Except.bind] at h
  | ok a => exact ⟨a, rfl, by simpa [Bind.bind, Except.bind] using h⟩

/-- A required `str` field only validates when present. -/
theorem validateStr_ok_isSome {n : String} {o : Option PyVal} {s : String}
    (h : validateStr n o = .ok s) : o.isSome := by
  cases o with
  | none => simp [validateStr] at h
  | some v => rfl

/-- A required `int` field only validates when present. -/
theorem validateInt_ok_isSome {n : String} {o : Option PyVal} {z : Int}
    (h : validateInt n o = .ok z) : o.isSome := by
  cases o with
  | none => simp [validateInt] at h
  | some v => rfl

/-- Every element produced by the dedup loop is the strip of an input entry
whose untrimmed lowercase key was fresh; when inputs are already stripped, the
element's own key is therefore outside `seen` and the element is stripped. -/
theorem dedupInterests_mem {x : String} :
    ∀ (seen v : List String), (∀ i ∈ v, pyStrip i = i) →
      x ∈ dedupInterests seen v → pyLower x ∉ seen ∧ pyStrip x = x := by
  intro seen v
  induction v generalizing seen with
  | nil => intro _ hx; simp [dedupInterests] at hx
  | cons i rest ih =>
      intro htrim hx
      have htl : ∀ j ∈ rest, pyStrip j = j := fun j hj => htrim j (List.mem_cons_of_mem _ hj)
      rw [dedupInterests] at hx
      by_cases hmem : pyLower i ∈ seen
      · rw [if_pos hmem] at hx
        exact ih seen htl hx
      · rw [if_neg hmem] at hx
        have hi : pyStrip i = i := htrim i (List.mem_cons_self i rest)
        rcases List.mem_cons.mp hx with hx | hx
        · rw [hi] at hx
          subst hx
          exact ⟨hmem, hi⟩
        · have h2 := ih (pyLower i :: seen) htl hx
          exact ⟨fun hc => h2.1 (List.mem_cons_of_mem _ hc), h2.2⟩

/-- For stripped inputs the dedup loop output has pairwise distinct
case-insensitive keys. -/
theorem dedupInterests_pairwise :
    ∀ (seen v : List String), (∀ i ∈ v, pyStrip i = i) →
      List.Pairwise (fun a b => pyLower a ≠ pyLower b) (dedupInterests seen v) := by
  intro seen v
  induction v generalizing seen with
  | nil => intro _; simp [dedupInterests]
  | cons i rest ih =>
      intro htrim
      have htl : ∀ j ∈ rest, pyStrip j = j := fun j hj => htrim j (List.mem_cons_of_mem _ hj)
      rw [dedupInterests]
      by_cases hmem : pyLower i ∈ seen
      · rw [if_pos hmem]
        exact ih seen htl
      · rw [if_neg hmem]
        refine List.Pairwise.cons ?_ (ih (pyLower i :: seen) htl)
        intro b hb
        have hb2 := dedupInterests_mem (pyLower i :: seen) rest htl hb
        have hi : pyStrip i = i := htrim i (List.mem_cons_self i rest)
        rw [hi]
        intro he
        exact hb2.1 (he ▸ List.mem_cons_self (pyLower i) seen)

/-- For stripped inputs the dedup loop output is a subsequence of the input,
hence preserves first-seen order. -/
theorem dedupInterests_sublist :
    ∀ (seen v : List String), (∀ i ∈ v, pyStrip i = i) →
      (dedupInterests seen v).Sublist v := by
  intro seen v
  induction v generalizing seen with
  | nil => intro _; simp [dedupInterests]
  | cons i rest ih =>
      intro htrim
      have htl : ∀ j ∈ rest, pyStrip j = j := fun j hj => htrim j (List.mem_cons_of_mem _ hj)
      rw [dedupInterests]
      by_cases hmem : pyLower i ∈ seen
      · rw [if_pos hmem]
        exact (ih seen htl).cons i
      · rw [if_neg hmem]
        rw [htrim i (List.mem_cons_self i rest)]
        exact (ih (pyLower i :: seen) htl).cons₂ i

/-! ## Claim theorems -/

/-- Claim C1 (behavior of the code at the failing input): contrary to the
spec's guarantee of exactly one final structured-extraction call regardless of
tool-call behavior — and contrary to the comment on scout.py line 106, which
says the conditional edge branches "to tools if tool calls present, else to
final" — the prebuilt `tools_condition` routes a tool-free agent reply
straight to END: an agent that never requests a tool call terminates the loop
after 1 agent invocation with 0 final-extraction calls.  An agent that always
requests tool calls does reach `final`: 3 agent invocations plus exactly 1
tool-free extraction call (4 total, within the cap+1 bound). -/
theorem scout_loop_skips_final_extraction_without_tool_calls :
    (scoutRun (fun _ => false) 20 initLoop).node = ScoutNode.graphEnd ∧
    (scoutRun (fun _ => false) 20 initLoop).agentCalls = 1 ∧
    (scoutRun (fun _ => false) 20 initLoop).finalCalls = 0 ∧
    (scoutRun (fun _ => true) 20 initLoop).node = ScoutNode.graphEnd ∧
    (scoutRun (fun _ => true) 20 initLoop).agentCalls = 3 ∧
    (scoutRun (fun _ => true) 20 initLoop).finalCalls = 1 := by decide

/-- Claim C3 (counterexample): the scout stage does not enforce the
traceability invariant.  `final_step` returns the parsed stories verbatim, so
a story whose topic disagrees with the assigned task's topic is returned with
its model-supplied topic, not filled from the task. -/
theorem scout_offtopic_story_passes_through :
    scoutStageStories scoutStateAI ⟨[offTopicStory], "e"⟩ = [offTopicStory] ∧
    offTopicStory.topic ≠ scoutStateAI.AssignedTask.topic := by decide

/-- Claim C3 (amended): the scout stage passes the model's stories through
unchanged — each returned story carries exactly the topic the model supplied;
no story field is rewritten from the assigned task. -/
theorem scout_stories_passthrough (st : ScoutState) (parsed : ScoutOutput) :
    scoutStageStories st parsed = parsed.NewsStories ∧
    (scoutStageStories st parsed).map (fun s => s.topic) =
      parsed.NewsStories.map (fun s => s.topic) :=
  ⟨rfl, rfl⟩

/-- Claim C4 (counterexample): when the model proposes two follow-up tasks in
one pass, the state's investigator-task list holds both (length 2 > 1) and the
router dispatches a scout for each — the second task is honored too, not
discarded. -/
theorem evaluator_second_task_also_dispatched :
    ((llm_node twoTasksOut evalState0).InvestigatorTasks).length = 2 ∧
    router_node (llm_node twoTasksOut evalState0) =
      .dispatch [⟨⟨"t1", "a1"⟩, none⟩, ⟨⟨"t2", "a2"⟩, none⟩] := by decide

/-- Claim C4 (amended): the evaluator stores every task the model proposes and
(before the cycle cap) the router dispatches one scout Send per stored task;
the investigator-task list's length is bounded only by the model's output, not
by 1. -/
theorem evaluator_honors_all_proposed_tasks (out : EvaluatorOutput) (s : EvaluatorState)
    (h0 : s.followup_cycles = 0) (hne : out.InvestigatorTasks ≠ []) :
    (llm_node out s).InvestigatorTasks = out.InvestigatorTasks ∧
    router_node (llm_node out s) =
      .dispatch (out.InvestigatorTasks.map fun t => ⟨⟨t.topic, t.additional_info⟩, none⟩) := by
  refine ⟨rfl, ?_⟩
  have hc : (llm_node out s).InvestigatorTasks ≠ [] ∧ (llm_node out s).followup_cycles < 1 :=
    ⟨hne, by simp [llm_node, h0]⟩
  unfold router_node
  rw [if_pos hc]
  rfl

/-- Witness for `evaluator_honors_all_proposed_tasks` at the two-task output. -/
theorem evaluator_honors_all_proposed_tasks_witness :
    evalState0.followup_cycles = 0 ∧ twoTasksOut.InvestigatorTasks ≠ [] ∧
    ((llm_node twoTasksOut evalState0).InvestigatorTasks = twoTasksOut.InvestigatorTasks ∧
      router_node (llm_node twoTasksOut evalState0) =
        .dispatch (twoTasksOut.InvestigatorTasks.map
          fun t => ⟨⟨t.topic, t.additional_info⟩, none⟩)) :=
  ⟨rfl, by decide, evaluator_honors_all_proposed_tasks twoTasksOut evalState0 rfl (by decide)⟩

/-- Claim C5 (counterexample): `planner_node` performs no truncation — with
the default config (`max_tasks = 1`) and a model response containing two
tasks, the planner emits both tasks, exceeding `max_tasks`. -/
theorem planner_output_not_truncated :
    cfgDefault.max_tasks = 1 ∧
    planner_node cfgDefault ⟨[taskA, taskB]⟩ = [taskA, taskB] ∧
    ¬ ((planner_node cfgDefault ⟨[taskA, taskB]⟩).length : Int) ≤ cfgDefault.max_tasks := by
  decide

/-- Claim C5 (amended): the planner emits exactly the tasks the model
returned; `max_tasks` reaches only the prompt, so when the model returns more
than `max_tasks` tasks the planner's output also exceeds `max_tasks`. -/
theorem planner_emits_exactly_model_tasks (cfg : ThinkleConfig) (resp : PlannerOutput)
    (h : (resp.ScoutTasks.length : Int) > cfg.max_tasks) :
    planner_node cfg resp = resp.ScoutTasks ∧
    ((planner_node cfg resp).length : Int) > cfg.max_tasks :=
  ⟨rfl, h⟩

/-- Witness for `planner_emits_exactly_model_tasks` at a two-task response
against the default config. -/
theorem planner_emits_exactly_model_tasks_witness :
    ((([taskA, taskB] : List ResearchTask).length : Int) > cfgDefault.max_tasks) ∧
    (planner_node cfgDefault ⟨[taskA, taskB]⟩ = [taskA, taskB] ∧
      ((planner_node cfgDefault ⟨[taskA, taskB]⟩).length : Int) > cfgDefault.max_tasks) :=
  ⟨by decide, planner_emits_exactly_model_tasks cfgDefault ⟨[taskA, taskB]⟩ (by decide)⟩

/-- Claim C8 (counterexample): `NewsStory` declares `score` as a plain `int`
with no range constraint, so validating a payload with score 0 — outside
[1,10] — succeeds rather than failing. -/
theorem news_story_out_of_range_score_accepted :
    NewsStory.model_validate (rawStoryWithScore 0) = .ok (storyWithScore 0) ∧
    ¬ (1 ≤ (storyWithScore 0).score ∧ (storyWithScore 0).score ≤ 10) := by decide

/-- Claim C8 (amended): any integer — of either sign, of any magnitude — is
accepted as a `NewsStory` score; only the integer type is validated, not the
[1,10] range. -/
theorem news_story_score_unconstrained (z : Int) :
    NewsStory.model_validate (rawStoryWithScore z) = .ok (storyWithScore z) := rfl

/-- Claim C9 (counterexample): the follow-up Sends built by `router_node`
carry no `config` key even when the evaluator state holds a config with a
non-default scout model, so the dispatched scout falls back to the hard-coded
"gpt-5-mini" instead of the configured model. -/
theorem followup_scout_uses_hardcoded_model :
    evalStateFollowup.config.models.scout = "my-custom-scout" ∧
    router_node evalStateFollowup = .dispatch [⟨⟨"q", "g"⟩, none⟩] ∧
    scout_model_name none = "gpt-5-mini" ∧
    scout_model_name none ≠ evalStateFollowup.config.models.scout := by decide

/-- Claim C9 (amended): planner-dispatched scouts receive the shared config
(and hence the configured scout model); evaluator-dispatched follow-up scouts
receive no config and fall back to the hard-coded default model. -/
theorem scout_config_threading :
    (∀ (st : PlannerState), ∀ p ∈ generate_scout_tasks st,
      p.config = some st.config ∧ scout_model_name p.config = st.config.models.scout) ∧
    (∀ (s : EvaluatorState) (sends : List ScoutSend), router_node s = .dispatch sends →
      ∀ p ∈ sends, p.config = none ∧ scout_model_name p.config = "gpt-5-mini") := by
  constructor
  · intro st p hp
    obtain ⟨task, _htask, rfl⟩ := List.mem_map.mp hp
    exact ⟨rfl, rfl⟩
  · intro s sends hs p hp
    unfold router_node at hs
    by_cases hc : s.InvestigatorTasks ≠ [] ∧ s.followup_cycles < 1
    · rw [if_pos hc] at hs
      cases hs
      obtain ⟨t, _ht, rfl⟩ := List.mem_map.mp hp
      exact ⟨rfl, rfl⟩
    · rw [if_neg hc] at hs
      cases hs

/-- Witness for `scout_config_threading`: one planner-side Send and one
evaluator-side Send, at concrete states. -/
theorem scout_config_threading_witness :
    ((⟨taskA, some cfgDefault⟩ : ScoutSend) ∈ generate_scout_tasks ⟨cfgDefault, [taskA]⟩) ∧
    ((some cfgDefault : Option ThinkleConfig) = some cfgDefault ∧
      scout_model_name (some cfgDefault) = cfgDefault.models.scout) ∧
    router_node evalStateFollowup = .dispatch [⟨⟨"q", "g"⟩, none⟩] ∧
    ((none : Option ThinkleConfig) = none ∧ scout_model_name none = "gpt-5-mini") := by
  refine ⟨by decide, ?_, by decide, ?_⟩
  · exact scout_config_threading.1 ⟨cfgDefault, [taskA]⟩ ⟨taskA, some cfgDefault⟩ (by decide)
  · exact scout_config_threading.2 evalStateFollowup [⟨⟨"q", "g"⟩, none⟩] (by decide)
      ⟨⟨"q", "g"⟩, none⟩ (by decide)

/-- Claim C10: every one of the seven `NewsStory` fields is declared required
with no default, so a payload that validates — directly or through the lenient
fallback, both of which end in `ScoutOutput`/`NewsStory` schema validation —
necessarily had all seven fields present; an omitted field can only produce a
validation error, never a partial story. -/
theorem news_story_validation_requires_all_fields (raw : RawNewsStory) (story : NewsStory)
    (h : NewsStory.model_validate raw = .ok story) :
    raw.title.isSome ∧ raw.summary.isSome ∧ raw.source.isSome ∧ raw.url.isSome ∧
      raw.score.isSome ∧ raw.timestamp.isSome ∧ raw.topic.isSome := by
  unfold NewsStory.model_validate at h
  obtain ⟨t, ht, h⟩ := except_bind_ok h
  obtain ⟨s1, hs1, h⟩ := except_bind_ok h
  obtain ⟨s2, hs2, h⟩ := except_bind_ok h
  obtain ⟨u, hu, h⟩ := except_bind_ok h
  obtain ⟨z, hz, h⟩ := except_bind_ok h
  obtain ⟨ts, hts, h⟩ := except_bind_ok h
  obtain ⟨tp, htp, h⟩ := except_bind_ok h
  exact ⟨validateStr_ok_isSome ht, validateStr_ok_isSome hs1, validateStr_ok_isSome hs2,
    validateStr_ok_isSome hu, validateInt_ok_isSome hz, validateStr_ok_isSome hts,
    validateStr_ok_isSome htp⟩

/-- Witness for `news_story_validation_requires_all_fields` at a complete
payload. -/
theorem news_story_validation_requires_all_fields_witness :
    NewsStory.model_validate (rawStoryWithScore 5) = .ok (storyWithScore 5) ∧
    ((rawStoryWithScore 5).title.isSome ∧ (rawStoryWithScore 5).summary.isSome ∧
      (rawStoryWithScore 5).source.isSome ∧ (rawStoryWithScore 5).url.isSome ∧
      (rawStoryWithScore 5).score.isSome ∧ (rawStoryWithScore 5).timestamp.isSome ∧
      (rawStoryWithScore 5).topic.isSome) :=
  ⟨rfl, news_story_validation_requires_all_fields (rawStoryWithScore 5) (storyWithScore 5) rfl⟩

/-- Claim C6 (counterexample): the dedup key is the lowercase of the UNtrimmed
entry, so `["AI ", "ai"]` — equal after trimming and case-folding — both
survive the load: the resulting list `["AI", "ai"]` contains two entries equal
under case-insensitive, whitespace-trimmed comparison. -/
theorem interests_dedup_whitespace_cx :
    validate_interests ["AI ", "ai"] = .ok ["AI", "ai"] ∧
    pyLower (pyStrip "AI") = pyLower (pyStrip "ai") ∧ ("AI" : String) ≠ "ai" := by decide

/-- Claim C6 (amended): when every input entry is already whitespace-trimmed,
the loaded interests have pairwise distinct case-insensitive keys, form a
subsequence of the input (first-seen order preserved) and are each trimmed —
in particular `["AI", "ai", "Robotics"]` loads to `["AI", "Robotics"]`.  The
dedup key being the untrimmed entry, entries differing only in surrounding
whitespace are not merged (see the counterexample). -/
theorem interests_dedup_on_trimmed_inputs (v u : List String)
    (htrim : ∀ i ∈ v, pyStrip i = i)
    (h : validate_interests v = .ok u) :
    List.Pairwise (fun a b => pyLower a ≠ pyLower b) u ∧ u.Sublist v ∧
      ∀ i ∈ u, pyStrip i = i := by
  unfold validate_interests at h
  by_cases hv : v = []
  · rw [if_pos hv] at h
    cases h
  · rw [if_neg hv] at h
    cases h
    exact ⟨dedupInterests_pairwise [] v htrim, dedupInterests_sublist [] v htrim,
      fun i hi => (dedupInterests_mem [] v htrim hi).2⟩

/-- Witness for `interests_dedup_on_trimmed_inputs` at the spec's scenario
`["AI", "ai", "Robotics"]`. -/
theorem interests_dedup_on_trimmed_inputs_witness :
    (∀ i ∈ (["AI", "ai", "Robotics"] : List String), pyStrip i = i) ∧
    validate_interests ["AI", "ai", "Robotics"] = .ok ["AI", "Robotics"] ∧
    (List.Pairwise (fun a b => pyLower a ≠ pyLower b) (["AI", "Robotics"] : List String) ∧
      (["AI", "Robotics"] : List String).Sublist ["AI", "ai", "Robotics"] ∧
      ∀ i ∈ (["AI", "Robotics"] : List String), pyStrip i = i) :=
  ⟨by decide, by decide,
    interests_dedup_on_trimmed_inputs ["AI", "ai", "Robotics"] ["AI", "Robotics"]
      (by decide) (by decide)⟩

/-- One-step unfolding of `evaluator_run` when the router dispatches. -/
theorem evaluator_run_dispatch {behavior : Nat → EvaluatorOutput}
    {scout : ScoutSend → List NewsStory} {fuel pass : Nat} {s : EvaluatorState}
    {sends : List ScoutSend}
    (hroute : router_node (llm_node (behavior pass) s) = .dispatch sends) :
    evaluator_run behavior scout (fuel + 1) pass s =
      (evaluator_run behavior scout fuel (pass + 1)
        (clear_tasks_node (scout_round scout sends (llm_node (behavior pass) s)))).map
        fun r => (r.1, r.2 + 1) := by
  have h0 : evaluator_run behavior scout (fuel + 1) pass s =
      match router_node (llm_node (behavior pass) s) with
      | .endRoute => some (llm_node (behavior pass) s, 0)
      | .dispatch sends2 =>
          (evaluator_run behavior scout fuel (pass + 1)
            (clear_tasks_node (scout_round scout sends2 (llm_node (behavior pass) s)))).map
            fun r => (r.1, r.2 + 1) := rfl
  rw [h0, hroute]

/-- One-step unfolding of `evaluator_run` when the router ends the stage. -/
theorem evaluator_run_endroute {behavior : Nat → EvaluatorOutput}
    {scout : ScoutSend → List NewsStory} {fuel pass : Nat} {s : EvaluatorState}
    (hroute : router_node (llm_node (behavior pass) s) = .endRoute) :
    evaluator_run behavior scout (fuel + 1) pass s = some (llm_node (behavior pass) s, 0) := by
  have h0 : evaluator_run behavior scout (fuel + 1) pass s =
      match router_node (llm_node (behavior pass) s) with
      | .endRoute => some (llm_node (behavior pass) s, 0)
      | .dispatch sends2 =>
          (evaluator_run behavior scout fuel (pass + 1)
            (clear_tasks_node (scout_round scout sends2 (llm_node (behavior pass) s)))).map
            fun r => (r.1, r.2 + 1) := rfl
  rw [h0, hroute]

/-- One-step unfolding of `evaluator_cycle_values` when the router dispatches. -/
theorem evaluator_cycle_values_dispatch {behavior : Nat → EvaluatorOutput}
    {scout : ScoutSend → List NewsStory} {fuel pass : Nat} {s : EvaluatorState}
    {sends : List ScoutSend}
    (hroute : router_node (llm_node (behavior pass) s) = .dispatch sends) :
    evaluator_cycle_values behavior scout (fuel + 1) pass s =
      s.followup_cycles :: (llm_node (behavior pass) s).followup_cycles ::
        (scout_round scout sends (llm_node (behavior pass) s)).followup_cycles ::
        evaluator_cycle_values behavior scout fuel (pass + 1)
          (clear_tasks_node (scout_round scout sends (llm_node (behavior pass) s))) := by
  have h0 : evaluator_cycle_values behavior scout (fuel + 1) pass s =
      match router_node (llm_node (behavior pass) s) with
      | .endRoute => [s.followup_cycles, (llm_node (behavior pass) s).followup_cycles]
      | .dispatch sends2 =>
          s.followup_cycles :: (llm_node (behavior pass) s).followup_cycles ::
            (scout_round scout sends2 (llm_node (behavior pass) s)).followup_cycles ::
            evaluator_cycle_values behavior scout fuel (pass + 1)
              (clear_tasks_node (scout_round scout sends2 (llm_node (behavior pass) s))) := rfl
  rw [h0, hroute]

/-- One-step unfolding of `evaluator_cycle_values` when the router ends the
stage. -/
theorem evaluator_cycle_values_endroute {behavior : Nat → EvaluatorOutput}
    {scout : ScoutSend → List NewsStory} {fuel pass : Nat} {s : EvaluatorState}
    (hroute : router_node (llm_node (behavior pass) s) = .endRoute) :
    evaluator_cycle_values behavior scout (fuel + 1) pass s =
      [s.followup_cycles, (llm_node (behavior pass) s).followup_cycles] := by
  have h0 : evaluator_cycle_values behavior scout (fuel + 1) pass s =
      match router_node (llm_node (behavior pass) s) with
      | .endRoute => [s.followup_cycles, (llm_node (behavior pass) s).followup_cycles]
      | .dispatch sends2 =>
          s.followup_cycles :: (llm_node (behavior pass) s).followup_cycles ::
            (scout_round scout sends2 (llm_node (behavior pass) s)).followup_cycles ::
            evaluator_cycle_values behavior scout fuel (pass + 1)
              (clear_tasks_node (scout_round scout sends2 (llm_node (behavior pass) s))) := rfl
  rw [h0, hroute]

/-- Claim C2: against a model that proposes exactly one follow-up task on
every evaluation pass, a run started with `followup_cycles = 0` dispatches
exactly one extra scouting round and terminates with `followup_cycles = 1`
(two llm passes total, for any surplus fuel); over the whole run the observed
`followup_cycles` values are `[0, 0, 0, 1, 1]` — monotonically non-decreasing
and never exceeding 1. -/
theorem evaluator_single_followup_cycle
    (behavior : Nat → EvaluatorOutput) (scout : ScoutSend → List NewsStory)
    (k : Nat) (s0 : EvaluatorState)
    (hb : ∀ n, ((behavior n).InvestigatorTasks).length = 1)
    (h0 : s0.followup_cycles = 0) :
    (∃ f, evaluator_run behavior scout (k + 1 + 1) 0 s0 = some (f, 1) ∧
      f.followup_cycles = 1) ∧
    evaluator_cycle_values behavior scout (k + 1 + 1) 0 s0 = [0, 0, 0, 1, 1] ∧
    List.Chain' (fun a b => a ≤ b)
      (evaluator_cycle_values behavior scout (k + 1 + 1) 0 s0) ∧
    ∀ x ∈ evaluator_cycle_values behavior scout (k + 1 + 1) 0 s0, x ≤ 1 := by
  have hne : ∀ n, (behavior n).InvestigatorTasks ≠ [] := by
    intro n hnil
    have h := hb n
    rw [hnil] at h
    simp at h
  have hs1c : (llm_node (behavior 0) s0).followup_cycles = 0 := h0
  have hr1 : router_node (llm_node (behavior 0) s0) =
      .dispatch ((behavior 0).InvestigatorTasks.map
        fun t => ⟨⟨t.topic, t.additional_info⟩, none⟩) := by
    have hc : (llm_node (behavior 0) s0).InvestigatorTasks ≠ [] ∧
        (llm_node (behavior 0) s0).followup_cycles < 1 :=
      ⟨hne 0, by rw [hs1c]; decide⟩
    unfold router_node
    rw [if_pos hc]
    rfl
  set sends0 : List ScoutSend := (behavior 0).InvestigatorTasks.map
    (fun t => ⟨⟨t.topic, t.additional_info⟩, none⟩) with hsends0
  set s3 : EvaluatorState :=
    clear_tasks_node (scout_round scout sends0 (llm_node (behavior 0) s0)) with hs3
  have hs3c : s3.followup_cycles = 1 := by
    rw [hs3]
    show (scout_round scout sends0 (llm_node (behavior 0) s0)).followup_cycles + 1 = 1
    show (llm_node (behavior 0) s0).followup_cycles + 1 = 1
    rw [hs1c]
  have hs1c2 : (llm_node (behavior 1) s3).followup_cycles = 1 := hs3c
  have hr2 : router_node (llm_node (behavior 1) s3) = .endRoute := by
    have hc : ¬ ((llm_node (behavior 1) s3).InvestigatorTasks ≠ [] ∧
        (llm_node (behavior 1) s3).followup_cycles < 1) := by
      rintro ⟨-, hlt⟩
      rw [hs1c2] at hlt
      exact absurd hlt (by decide)
    unfold router_node
    rw [if_neg hc]
  have hrun : evaluator_run behavior scout (k + 1 + 1) 0 s0 =
      some (llm_node (behavior 1) s3, 1) := by
    rw [evaluator_run_dispatch hr1, ← hs3, evaluator_run_endroute hr2]
    rfl
  have hvals : evaluator_cycle_values behavior scout (k + 1 + 1) 0 s0 = [0, 0, 0, 1, 1] := by
    rw [evaluator_cycle_values_dispatch hr1, ← hs3, evaluator_cycle_values_endroute hr2]
    have hs2c : (scout_round scout sends0 (llm_node (behavior 0) s0)).followup_cycles = 0 := hs1c
    rw [h0, hs1c, hs2c, hs3c, hs1c2]
  refine ⟨⟨llm_node (behavior 1) s3, hrun, hs1c2⟩, hvals, ?_, ?_⟩
  · rw [hvals]
    exact List.chain'_iff_pairwise.mpr (by decide)
  · rw [hvals]
    decide

/-- Witness for `evaluator_single_followup_cycle` at a concrete one-task
behavior, an empty scout and a fresh state. -/
theorem evaluator_single_followup_cycle_witness :
    (∀ n, ((behaviorOneTask n).InvestigatorTasks).length = 1) ∧
    evalState0.followup_cycles = 0 ∧
    ((∃ f, evaluator_run behaviorOneTask scoutNoStories 2 0 evalState0 = some (f, 1) ∧
        f.followup_cycles = 1) ∧
      evaluator_cycle_values behaviorOneTask scoutNoStories 2 0 evalState0 = [0, 0, 0, 1, 1] ∧
      List.Chain' (fun a b => a ≤ b)
        (evaluator_cycle_values behaviorOneTask scoutNoStories 2 0 evalState0) ∧
      ∀ x ∈ evaluator_cycle_values behaviorOneTask scoutNoStories 2 0 evalState0, x ≤ 1) :=
  ⟨fun _ => rfl, rfl,
    evaluator_single_followup_cycle behaviorOneTask scoutNoStories 0 evalState0
      (fun _ => rfl) rfl⟩

/-- Rendering a tone and parsing it back restores the tone. -/
theorem parseTone_toneStr (t : Tone) : parseTone (toneStr t) = .ok t := by
  cases t <;> rfl

/-- Rendering a frequency and parsing it back restores it. -/
theorem parseFrequency_freqStr (f : Frequency) : parseFrequency (freqStr f) = .ok f := by
  cases f <;> rfl

/-- Rendering an output format and parsing it back restores it. -/
theorem parseOutFormat_outFormatStr (f : OutFormat) : parseOutFormat (outFormatStr f) = .ok f := by
  cases f <;> rfl

/-- A validated `RedditSettings` re-validates to itself from its own fields. -/
theorem mkRedditSettings_dump {a b : Int} {r : RedditSettings}
    (h : mkRedditSettings a b = .ok r) :
    mkRedditSettings r.min_upvotes r.max_age_hours = .ok r := by
  unfold mkRedditSettings at h ⊢
  by_cases h1 : a < 0
  · rw [if_pos h1] at h
    cases h
  · rw [if_neg h1] at h
    by_cases h2 : b ≤ 0
    · rw [if_pos h2] at h
      cases h
    · rw [if_neg h2] at h
      cases h
      simp [h1, h2]

/-- A validated `YouTubeSettings` re-validates to itself from its own fields. -/
theorem mkYouTubeSettings_dump {a b : Int} {y : YouTubeSettings}
    (h : mkYouTubeSettings a b = .ok y) :
    mkYouTubeSettings y.min_views y.max_duration_minutes = .ok y := by
  unfold mkYouTubeSettings at h ⊢
  by_cases h1 : a < 0
  · rw [if_pos h1] at h
    cases h
  · rw [if_neg h1] at h
    by_cases h2 : b ≤ 0
    · rw [if_pos h2] at h
      cases h
    · rw [if_neg h2] at h
      cases h
      simp [h1, h2]

/-- A validated `ContentSettings` exposes its nested settings and re-validates
to itself from its own fields. -/
theorem mkContentSettings_dump {a b c d : Bool} {r : RedditSettings} {y : YouTubeSettings}
    {ct : ContentSettings} (h : mkContentSettings a b c d r y = .ok ct) :
    ct.reddit = r ∧ ct.youtube = y ∧
    mkContentSettings ct.include_academic ct.include_reddit ct.include_youtube
      ct.include_news ct.reddit ct.youtube = .ok ct := by
  unfold mkContentSettings at h ⊢
  by_cases hs : a ∨ b ∨ c ∨ d
  · rw [if_pos hs] at h
    cases h
    exact ⟨rfl, rfl, by simp [hs]⟩
  · rw [if_neg hs] at h
    cases h

/-- A validated `NewsletterSettings` re-validates to itself from its rendered
fields. -/
theorem mkNewsletterSettings_dump {tone freq : String} {io : Bool} {ms : Int}
    {ns : NewsletterSettings} (h : mkNewsletterSettings tone io freq ms = .ok ns) :
    mkNewsletterSettings (toneStr ns.tone) ns.include_opinions (freqStr ns.frequency)
      ns.max_stories = .ok ns := by
  unfold mkNewsletterSettings at h ⊢
  obtain ⟨t, ht, h⟩ := except_bind_ok h
  obtain ⟨f, hf, h⟩ := except_bind_ok h
  by_cases hr : 0 < ms ∧ ms ≤ 50
  · rw [if_pos hr] at h
    cases h
    simp [parseTone_toneStr, parseFrequency_freqStr, Bind.bind, Except.bind, hr]
  · rw [if_neg hr] at h
    cases h

/-- A validated `OutputSettings` re-validates to itself from its rendered
fields. -/
theorem mkOutputSettings_dump {fmt : String} {is iss : Bool} {os : OutputSettings}
    (h : mkOutputSettings fmt is iss = .ok os) :
    mkOutputSettings (outFormatStr os.format) os.include_sources os.include_summary_stats
      = .ok os := by
  unfold mkOutputSettings at h ⊢
  obtain ⟨f, hf, h⟩ := except_bind_ok h
  cases h
  simp [parseOutFormat_outFormatStr, Bind.bind, Except.bind]

/-- Claim C7 (counterexample): round-tripping is not the identity.  The raw
document with interests `[" AI", "ai"]` loads successfully (the untrimmed
dedup key keeps both), yielding interests `["AI", "ai"]`; saving and
re-parsing that config re-runs the interests validator, which now collapses
the pair to `["AI"]` — the reloaded config differs from the original. -/
theorem config_roundtrip_cx :
    mkThinkleConfig (rawWithInterests [" AI", "ai"]) = .ok cfgTwoCase ∧
    saveThenLoad cfgTwoCase = .ok { cfgTwoCase with interests := ["AI"] } ∧
    saveThenLoad cfgTwoCase ≠ .ok cfgTwoCase := by decide

/-- Claim C7 (amended): serializing and re-parsing a successfully loaded
configuration yields the identical configuration, provided the loaded
interests list is a fixed point of the interests validator (as it is whenever
no two loaded entries share a case-insensitive key — the counterexample shows
the proviso is necessary). -/
theorem config_roundtrip_of_stable_interests (raw : RawConfig) (c : ThinkleConfig)
    (hload : mkThinkleConfig raw = .ok c)
    (hfix : validate_interests c.interests = .ok c.interests) :
    saveThenLoad c = .ok c := by
  unfold mkThinkleConfig at hload
  obtain ⟨ints, hints, hload⟩ := except_bind_ok hload
  obtain ⟨ns, hns, hload⟩ := except_bind_ok hload
  obtain ⟨rd, hrd, hload⟩ := except_bind_ok hload
  obtain ⟨yt, hyt, hload⟩ := except_bind_ok hload
  obtain ⟨ct, hct, hload⟩ := except_bind_ok hload
  obtain ⟨outp, hout, hload⟩ := except_bind_ok hload
  by_cases hmt : 0 < raw.max_tasks ∧ raw.max_tasks ≤ 10
  · rw [if_pos hmt] at hload
    cases hload
    obtain ⟨hctr, hcty, hct2⟩ := mkContentSettings_dump hct
    have hfix2 : validate_interests ints = .ok ints := hfix
    rw [hctr, hcty] at hct2
    simp [saveThenLoad, mkThinkleConfig, dumpConfig, Bind.bind, Except.bind,
      hfix2, mkNewsletterSettings_dump hns, hctr, hcty,
      mkRedditSettings_dump hrd, mkYouTubeSettings_dump hyt, hct2,
      mkOutputSettings_dump hout, hmt]
  · rw [if_neg hmt] at hload
    cases hload

/-- Witness for `config_roundtrip_of_stable_interests` at a loaded config with
already-distinct interests. -/
theorem config_roundtrip_of_stable_interests_witness :
    mkThinkleConfig (rawWithInterests ["AI", "Robotics"]) = .ok cfgTwoInterests ∧
    validate_interests cfgTwoInterests.interests = .ok cfgTwoInterests.interests ∧
    saveThenLoad cfgTwoInterests = .ok cfgTwoInterests :=
  ⟨by decide, by decide,
    config_roundtrip_of_stable_interests (rawWithInterests ["AI", "Robotics"]) cfgTwoInterests
      (by decide) (by decide)⟩

end Thinkle
